import Mathlib

/-!
Shallow embedding of the drm-rs core: the vertical-blank wait protocol
(`src/lib.rs`, `Device::wait_vblank`) and the resource-handle /
bounded-buffer marshalling layer (`src/control/mod.rs`).

Machine integers are modelled as `Nat` with explicit `% 2^32` / `% 2^64`
where the source performs a wrapping cast.  The control channel (the
`drm_ffi` collaborator) is an explicit parameter; stateful effects are
made visible by returning the list of requests a call issued.
-/

namespace Drm

/-! ### Kernel ABI constants (drm_vblank_seq_type)

Modelled from the spec: the numeric values of the vblank sequence-type
bits come from the DRM uapi headers re-exported by the external
`drm_ffi` collaborator (not under `src/`); the spec describes them as
the absolute/relative flag, the behavior flags, and the high-order CRTC
index field with its shift. -/

def DRM_VBLANK_ABSOLUTE : Nat := 0x0

def DRM_VBLANK_RELATIVE : Nat := 0x1

def DRM_VBLANK_HIGH_CRTC_MASK : Nat := 0x0000003e

def DRM_VBLANK_HIGH_CRTC_SHIFT : Nat := 1

def DRM_VBLANK_EVENT : Nat := 0x04000000

def DRM_VBLANK_NEXTONMISS : Nat := 0x10000000

/-- Bitwise complement on 32-bit words (Rust `!x` on `u32`). -/
def u32Not (x : Nat) : Nat := 0xFFFFFFFF ^^^ x

/-- Classified system errors (`rustix::io::Errno` / `result::SystemError`).
Modelled from the spec: the error type itself lives outside `src/`; the
spec only requires an invalid-argument classification to be
distinguishable from channel-reported failures. -/
inductive SysError where
  | EINVAL : SysError
  | ENOENT : SysError
  | other : Nat → SysError
deriving DecidableEq, Repr

/-- `WaitVblankTarget` from `src/lib.rs`. -/
inductive WaitVblankTarget where
  | Absolute : Nat → WaitVblankTarget
  | Relative : Nat → WaitVblankTarget
deriving DecidableEq, Repr

/-- `WaitVblankFlags` from `src/lib.rs`: a bitflags set with the
`EVENT` and `NEXT_ON_MISS` bits. -/
structure WaitVblankFlags where
  event : Bool
  nextOnMiss : Bool
deriving DecidableEq, Repr

/-- `WaitVblankFlags::bits()`. -/
def WaitVblankFlags.bits (f : WaitVblankFlags) : Nat :=
  (if f.event then DRM_VBLANK_EVENT else 0) |||
    (if f.nextOnMiss then DRM_VBLANK_NEXTONMISS else 0)

def noFlags : WaitVblankFlags := ⟨false, false⟩

/-- The raw reply structure `drm_wait_vblank_reply` delivered by the
control channel: type word, sequence, and the timestamp pair.  The
timestamp fields are C longs holding kernel timestamps; they are
modelled as their non-negative values. -/
structure RawVblankReply where
  type_ : Nat
  sequence : Nat
  tval_sec : Nat
  tval_usec : Nat
deriving DecidableEq, Repr

/-- A request issued to the control channel by `wait_vblank`:
the packed type word, the target sequence, and the user data word. -/
structure VblankRequest where
  type_ : Nat
  sequence : Nat
  user_data : Nat
deriving DecidableEq, Repr

/-- The control channel for vblank waits (`drm_ffi::wait_vblank`),
an opaque collaborator: one request in, a classified failure or a raw
reply out. -/
def VblankChan : Type := VblankRequest → Except SysError RawVblankReply

/-- `std::time::Duration` as a total count of nanoseconds;
`Duration::new(secs, nanos)` normalises into this value. -/
def durationNew (secs nanos : Nat) : Nat := secs * 1000000000 + nanos

/-- `WaitVblankReply` from `src/lib.rs`: frame sequence and optional
decoded timestamp (total nanoseconds). -/
structure WaitVblankReply where
  frame : Nat
  time : Option Nat
deriving DecidableEq, Repr

/-- Outcome of a `wait_vblank` call: a returned reply, a returned
error, or an `assert_eq!` failure (a panic, which halts interpretation
of the reply instead of returning). -/
inductive VblankOutcome where
  | ok : WaitVblankReply → VblankOutcome
  | err : SysError → VblankOutcome
  | panicked : VblankOutcome
deriving DecidableEq, Repr

def VblankOutcome.isOk : VblankOutcome → Bool
  | .ok _ => true
  | _ => false

/-- The direction word chosen for a target
(`_DRM_VBLANK_ABSOLUTE` / `_DRM_VBLANK_RELATIVE`). -/
def waitTypeOf : WaitVblankTarget → Nat
  | .Absolute _ => DRM_VBLANK_ABSOLUTE
  | .Relative _ => DRM_VBLANK_RELATIVE

/-- The sequence number carried by a target. -/
def seqOf : WaitVblankTarget → Nat
  | .Absolute n => n
  | .Relative n => n

/-- `let high_crtc = crtc_index << _DRM_VBLANK_HIGH_CRTC_SHIFT;`
(`u32` shift, wrapping). -/
def encodeHighCrtc (crtc_index : Nat) : Nat :=
  (crtc_index <<< DRM_VBLANK_HIGH_CRTC_SHIFT) % 2 ^ 32

/-- `let type_ = wait_type | high_crtc | flags.bits();` -/
def encodeType (target : WaitVblankTarget) (flags : WaitVblankFlags)
    (crtc_index : Nat) : Nat :=
  waitTypeOf target ||| encodeHighCrtc crtc_index ||| flags.bits

/-- `Device::wait_vblank` from `src/lib.rs` (lines 197–236), with the
control channel explicit and the issued requests returned alongside the
outcome.  Faithful to the source: the precondition test is
`(crtc_index << SHIFT) & HIGH_CRTC_MASK != 0` (no complement), the
postcondition is `assert_eq!(type_ & !wait_type, reply.type_)`, and the
time decode wraps `usec * 1000` to `u32` and `sec` to `u64`. -/
def wait_vblank (chan : VblankChan) (target_sequence : WaitVblankTarget)
    (flags : WaitVblankFlags) (crtc_index : Nat) (user_data : Nat) :
    VblankOutcome × List VblankRequest :=
  let high_crtc := encodeHighCrtc crtc_index
  if high_crtc &&& DRM_VBLANK_HIGH_CRTC_MASK ≠ 0 then
    (.err .EINVAL, [])
  else
    let sequence := seqOf target_sequence
    let wait_type := waitTypeOf target_sequence
    let type_ := encodeType target_sequence flags crtc_index
    let req : VblankRequest := ⟨type_, sequence, user_data⟩
    match chan req with
    | .error e => (.err e, [req])
    | .ok reply =>
      if type_ &&& u32Not wait_type = reply.type_ then
        let time : Option Nat :=
          if reply.tval_sec = 0 ∧ reply.tval_usec = 0 then none
          else some (durationNew (reply.tval_sec % 2 ^ 64)
            (reply.tval_usec * 1000 % 2 ^ 32))
        (.ok ⟨reply.sequence, time⟩, [req])
      else
        (.panicked, [req])

/-! ### Bounded receive buffer

Modelled from the spec: `SmallBuffer<T>` lives in the crate's `util`
module, which is not under `src/`; per the spec it is a fixed-capacity
storage array with a separately tracked occupied length, whose public
view is exactly the occupied prefix and whose equality and hash are
defined over the occupied prefix only. -/

structure SmallBuffer (α : Type) where
  data : List α
  len : Nat
deriving Repr, DecidableEq

/-- The public read-only view: exactly the occupied prefix
(`AsRef<[T]>` returning `&data[..len]`). -/
def SmallBuffer.view {α : Type} (b : SmallBuffer α) : List α :=
  b.data.take b.len

/-- Modelled from the spec: equality over the occupied prefix only. -/
def SmallBuffer.eqv {α : Type} (a b : SmallBuffer α) : Prop :=
  a.view = b.view

instance {α : Type} [DecidableEq α] (a b : SmallBuffer α) :
    Decidable (a.eqv b) := by
  unfold SmallBuffer.eqv; infer_instance

/-- Modelled from the spec: hashing over the occupied prefix only.
A concrete executable mix; only which slots it reads matters. -/
def SmallBuffer.hashv {α : Type} (h : α → Nat) (b : SmallBuffer α) : Nat :=
  b.view.foldl (fun acc x => acc * 31 + h x) 7

/-! ### Handle types

Modelled from the spec: the per-kind handle modules (`connector`,
`crtc`, `encoder`, `framebuffer`, `plane`) are not under `src/`; per
the spec each kind is a distinct tagged wrapper over a 32-bit id, never
interchangeable with another kind. -/

structure FbHandle where
  val : Nat
deriving DecidableEq, Repr

structure CrtcHandle where
  val : Nat
deriving DecidableEq, Repr

structure ConnHandle where
  val : Nat
deriving DecidableEq, Repr

structure EncHandle where
  val : Nat
deriving DecidableEq, Repr

structure PlaneHandle where
  val : Nat
deriving DecidableEq, Repr

/-- The 32-slot receive pattern of `src/control/mod.rs`: a stack array
is zero-initialised, the channel fills the first `min (count, 32)`
slots with the reported values, and the tail keeps its zeros.  `f`
wraps the raw `u32` into the kind's handle type (`mem::transmute` of
the filled array in the source). -/
def fill32 {α : Type} (f : Nat → α) (reported : List α) : List α :=
  reported.take 32 ++ (List.replicate (32 - min reported.length 32) (f 0))

/-- `ResourceHandles` from `src/control/mod.rs` (lines 202–212). -/
structure ResourceHandles where
  fbs : SmallBuffer FbHandle
  crtcs : SmallBuffer CrtcHandle
  connectors : SmallBuffer ConnHandle
  encoders : SmallBuffer EncHandle
  width : Nat × Nat
  height : Nat × Nat
deriving Repr

/-- `ResourceHandles::connectors()`. -/
def ResourceHandles.connectorsView (r : ResourceHandles) : List ConnHandle :=
  r.connectors.view

/-- `ResourceHandles::encoders()`. -/
def ResourceHandles.encodersView (r : ResourceHandles) : List EncHandle :=
  r.encoders.view

/-- `ResourceHandles::crtcs()`. -/
def ResourceHandles.crtcsView (r : ResourceHandles) : List CrtcHandle :=
  r.crtcs.view

/-- `ResourceHandles::framebuffers()`. -/
def ResourceHandles.framebuffersView (r : ResourceHandles) : List FbHandle :=
  r.fbs.view

/-- The derived `PartialEq` of `ResourceHandles`: field-wise, each
`SmallBuffer` compared by its occupied prefix. -/
def ResourceHandles.eqv (a b : ResourceHandles) : Prop :=
  a.fbs.eqv b.fbs ∧ a.crtcs.eqv b.crtcs ∧ a.connectors.eqv b.connectors ∧
    a.encoders.eqv b.encoders ∧ a.width = b.width ∧ a.height = b.height

/-- The derived `Hash` of `ResourceHandles`: field-wise combination of
the prefix-only buffer hashes and the scalar bounds. -/
def ResourceHandles.hashv (r : ResourceHandles) : Nat :=
  r.fbs.hashv FbHandle.val * 2 + r.crtcs.hashv CrtcHandle.val * 3 +
    r.connectors.hashv ConnHandle.val * 5 + r.encoders.hashv EncHandle.val * 7 +
    r.width.1 * 11 + r.width.2 * 13 + r.height.1 * 17 + r.height.2 * 19

/-- `PlaneResourceHandles` from `src/control/mod.rs` (lines 236–241). -/
structure PlaneResourceHandles where
  planes : SmallBuffer PlaneHandle
deriving Repr

/-- `PlaneResourceHandles::planes()`. -/
def PlaneResourceHandles.planesView (p : PlaneResourceHandles) : List PlaneHandle :=
  p.planes.view

/-- Derived `PartialEq` of `PlaneResourceHandles`. -/
def PlaneResourceHandles.eqv (a b : PlaneResourceHandles) : Prop :=
  a.planes.eqv b.planes

/-- Derived `Hash` of `PlaneResourceHandles`. -/
def PlaneResourceHandles.hashv (p : PlaneResourceHandles) : Nat :=
  p.planes.hashv PlaneHandle.val

/-! ### Resource enumeration -/

/-- What the device reports to `ffi::mode::get_resources`: the raw
handle lists per category and the global mode size bounds.  Modelled
from the spec: the `drm_ffi` collaborator (not under `src/`) writes at
most the buffer's capacity of entries per category and shrinks each
output slice to the number written, `min (reported, capacity)`. -/
structure CardState where
  fbs : List Nat
  crtcs : List Nat
  connectors : List Nat
  encoders : List Nat
  min_width : Nat
  max_width : Nat
  min_height : Nat
  max_height : Nat
deriving Repr

/-- `Device::resource_handles` from `src/control/mod.rs` (lines
59–101): four 32-slot buffers, one channel call (`dev` is the
channel's verdict: a classified failure or the card's report), slice
lengths after the call become the occupied lengths. -/
def resource_handles (dev : Except SysError CardState) :
    Except SysError ResourceHandles :=
  match dev with
  | .error e => .error e
  | .ok card =>
    let fb_len := min card.fbs.length 32
    let crtc_len := min card.crtcs.length 32
    let conn_len := min card.connectors.length 32
    let enc_len := min card.encoders.length 32
    .ok {
      fbs := ⟨fill32 FbHandle.mk (card.fbs.map FbHandle.mk), fb_len⟩
      crtcs := ⟨fill32 CrtcHandle.mk (card.crtcs.map CrtcHandle.mk), crtc_len⟩
      connectors := ⟨fill32 ConnHandle.mk (card.connectors.map ConnHandle.mk), conn_len⟩
      encoders := ⟨fill32 EncHandle.mk (card.encoders.map EncHandle.mk), enc_len⟩
      width := (card.min_width, card.max_width)
      height := (card.min_height, card.max_height) }

/-- `Device::plane_handles` from `src/control/mod.rs` (lines 104–123). -/
def plane_handles (dev : Except SysError (List Nat)) :
    Except SysError PlaneResourceHandles :=
  match dev with
  | .error e => .error e
  | .ok planes =>
    let len := min planes.length 32
    .ok ⟨⟨fill32 PlaneHandle.mk (planes.map PlaneHandle.mk), len⟩⟩

/-! ### Connector detail query -/

/-- The raw kernel timing record `drm_mode_modeinfo` wrapped by `Mode`
(`src/control/mod.rs`, lines 250–293). -/
structure ModeInfo where
  clock : Nat
  hdisplay : Nat
  hsync_start : Nat
  hsync_end : Nat
  htotal : Nat
  hskew : Nat
  vdisplay : Nat
  vsync_start : Nat
  vsync_end : Nat
  vtotal : Nat
  vscan : Nat
  vrefresh : Nat
deriving DecidableEq, Repr

/-- The all-zero `ffi::drm_mode_modeinfo::default()` filling the
receive array's unused tail. -/
def ModeInfo.default : ModeInfo := ⟨0, 0, 0, 0, 0, 0, 0, 0, 0, 0, 0, 0⟩

/-- Connection state. Modelled from the spec: the `connector` module is
not under `src/`; the spec gives a tri-state decoded from a raw
integer. Kernel values: 1 connected, 2 disconnected, else unknown. -/
inductive ConnState where
  | Connected : ConnState
  | Disconnected : ConnState
  | Unknown : ConnState
deriving DecidableEq, Repr

/-- `connector::State::from(raw)`. Modelled from the spec. -/
def connStateFrom (n : Nat) : ConnState :=
  if n = 1 then .Connected else if n = 2 then .Disconnected else .Unknown

/-- Connector kind. Modelled from the spec: an enumerated kind decoded
from the raw integer code by a table outside `src/`; represented here
by its raw code, which the claims never inspect beyond identity. -/
structure ConnType where
  code : Nat
deriving DecidableEq, Repr

/-- What the device reports to `ffi::mode::get_connector` for one
connector.  Modelled from the spec: the `drm_ffi` collaborator is not
under `src/`; the property handle list and the property value list are
index-aligned (one count, `count_props`, governs both arrays), so the
report carries them as pairs.  Each output slice is shrunk to
`min (reported, capacity)`. -/
structure RawConnectorInfo where
  connector_type : Nat
  connector_type_id : Nat
  connection : Nat
  mm_width : Nat
  mm_height : Nat
  props : List (Nat × Nat)
  encoders : List Nat
  modes : List ModeInfo
  encoder_id : Nat
deriving Repr

/-- `connector::Info`. Modelled from the spec for the field layout (the
`connector` module is not under `src/`); the construction in
`Device::get_connector` (`src/control/mod.rs`, lines 156–173) fills it. -/
structure ConnectorInfo where
  handle : ConnHandle
  conn_type : ConnType
  conn_type_id : Nat
  connection : ConnState
  size : Nat × Nat
  props : SmallBuffer Nat
  pvals : SmallBuffer Nat
  encoders : SmallBuffer EncHandle
  modes : SmallBuffer ModeInfo
  curr_enc : Option EncHandle
deriving Repr

/-- The per-connector control channel (`ffi::mode::get_connector`). -/
def ConnChan : Type := ConnHandle → Except SysError RawConnectorInfo

/-- `Device::get_connector` from `src/control/mod.rs` (lines 126–176):
five 32-slot receive buffers, one channel call keyed by the handle,
slice lengths after the call become the occupied lengths, and the
`encoder_id` sentinel 0 decodes to `none`. -/
def get_connector (chan : ConnChan) (handle : ConnHandle) :
    Except SysError ConnectorInfo :=
  match chan handle with
  | .error e => .error e
  | .ok info =>
    let enc_len := min info.encoders.length 32
    let prop_len := min info.props.length 32
    let pval_len := min info.props.length 32
    let mode_len := min info.modes.length 32
    .ok {
      handle := handle
      conn_type := ⟨info.connector_type⟩
      conn_type_id := info.connector_type_id
      connection := connStateFrom info.connection
      size := (info.mm_width, info.mm_height)
      props := ⟨fill32 id (info.props.map Prod.fst), prop_len⟩
      pvals := ⟨fill32 id (info.props.map Prod.snd), pval_len⟩
      encoders := ⟨fill32 EncHandle.mk (info.encoders.map EncHandle.mk), enc_len⟩
      modes := ⟨info.modes.take 32 ++
        List.replicate (32 - min info.modes.length 32) ModeInfo.default, mode_len⟩
      curr_enc := if info.encoder_id = 0 then none
        else some ⟨info.encoder_id⟩ }

/-! ### Placeholder per-resource queries -/

/-- `encoder::Info` — a unit placeholder struct (its module is not
under `src/`; the source constructs it with no fields). -/
structure EncoderInfo where
deriving DecidableEq, Repr

/-- `crtc::Info` — a unit placeholder struct. -/
structure CrtcInfo where
deriving DecidableEq, Repr

/-- `framebuffer::Info` — a unit placeholder struct. -/
structure FramebufferInfo where
deriving DecidableEq, Repr

/-- `plane::Info` — a unit placeholder struct. -/
structure PlaneInfo where
deriving DecidableEq, Repr

/-- The device as seen by the per-resource queries: which handles the
kernel currently knows per kind (deciding stale/unknown), recorded so
that requests the body chooses not to issue are observable. -/
structure DevState where
  knownEncoders : List Nat
  knownCrtcs : List Nat
  knownFbs : List Nat
  knownPlanes : List Nat
deriving Repr

/-- `Device::get_encoder` from `src/control/mod.rs` (lines 179–181):
the body is literally `Ok(encoder::Info)` — the device is never
consulted.  The second component is the list of handles for which a
control-channel request was issued: none. -/
def get_encoder (dev : DevState) (handle : EncHandle) :
    Except SysError EncoderInfo × List Nat :=
  (.ok ⟨⟩, [])

/-- `Device::get_crtc` (lines 184–186): body `Ok(crtc::Info)`. -/
def get_crtc (dev : DevState) (handle : CrtcHandle) :
    Except SysError CrtcInfo × List Nat :=
  (.ok ⟨⟩, [])

/-- `Device::get_framebuffer` (lines 189–194): body
`Ok(framebuffer::Info)`. -/
def get_framebuffer (dev : DevState) (handle : FbHandle) :
    Except SysError FramebufferInfo × List Nat :=
  (.ok ⟨⟩, [])

/-- `Device::get_plane` (lines 197–199): body `Ok(plane::Info)`. -/
def get_plane (dev : DevState) (handle : PlaneHandle) :
    Except SysError PlaneInfo × List Nat :=
  (.ok ⟨⟩, [])

/-! ### Claim-side definitions and concrete fixtures -/

/-- The bits the claim calls reserved for the behavior flags and the
CRTC index. -/
def reservedBits : Nat :=
  DRM_VBLANK_EVENT ||| DRM_VBLANK_NEXTONMISS ||| DRM_VBLANK_HIGH_CRTC_MASK

/-- The claim's postcondition, following the spec's words: the reply's
direction (absolute/relative) bits equal the request's direction bits,
the behavior-flag and CRTC-index bits being masked out of the
comparison.  To be compared with the source's
`assert_eq!(type_ & !wait_type, reply.type_)`. -/
def claimDirectionAgrees (reqType replyType : Nat) : Prop :=
  replyType &&& u32Not reservedBits = reqType &&& u32Not reservedBits

instance (a b : Nat) : Decidable (claimDirectionAgrees a b) := by
  unfold claimDirectionAgrees; infer_instance

/-- A control channel that answers every request the way the kernel
does: with the absolute form of the type word (here for a plain
relative request: type word 0), sequence 42, no timestamp. -/
def chanAlwaysAbsolute : VblankChan := fun _ => .ok ⟨0, 42, 0, 0⟩

/-- A stub control channel whose invocation is observable through the
request list `wait_vblank` returns. -/
def chanStub : VblankChan := fun _ => .ok ⟨0, 0, 0, 0⟩

/-- A channel replying with the raw timestamp pair `(1, 500)` to any
request, echoing the absolute type word 0 (matching a plain absolute
request). -/
def chanOneUsec : VblankChan := fun _ => .ok ⟨0, 7, 1, 500⟩

/-- A device that currently knows no resource at all: every handle is
stale or unknown on it. -/
def devEmpty : DevState := ⟨[], [], [], []⟩

/-- The scenario card of the claim: 3 CRTCs, 2 connectors, 1 encoder,
0 framebuffers, bounds (320, 4096) × (200, 2160). -/
def cardSmall : CardState :=
  ⟨[], [10, 11, 12], [20, 21], [30], 320, 4096, 200, 2160⟩

/-- The scenario card of the claim: 40 reported connectors. -/
def cardWide : CardState :=
  ⟨[], [], List.range 40, [], 0, 0, 0, 0⟩

/-- A channel reporting one connector whose bound encoder id is 9. -/
def chanConnEnc9 : ConnChan := fun _ =>
  .ok ⟨11, 1, 1, 600, 340, [(3, 77)], [9], [], 9⟩

/-- A pair of resource-handle aggregates whose buffers agree on their
occupied prefixes but differ in the unused tail slots. -/
def rhA : ResourceHandles :=
  ⟨⟨[⟨1⟩, ⟨2⟩], 1⟩, ⟨[⟨3⟩, ⟨4⟩], 1⟩, ⟨[⟨5⟩, ⟨6⟩], 1⟩, ⟨[⟨7⟩, ⟨8⟩], 1⟩,
    (320, 4096), (200, 2160)⟩

/-- Same occupied prefixes as `rhA`, different tails. -/
def rhB : ResourceHandles :=
  ⟨⟨[⟨1⟩, ⟨9⟩], 1⟩, ⟨[⟨3⟩, ⟨9⟩], 1⟩, ⟨[⟨5⟩, ⟨9⟩], 1⟩, ⟨[⟨7⟩, ⟨9⟩], 1⟩,
    (320, 4096), (200, 2160)⟩

/-- Plane aggregates agreeing on the occupied prefix only. -/
def prhA : PlaneResourceHandles := ⟨⟨[⟨1⟩, ⟨2⟩], 1⟩⟩

/-- Same occupied prefix as `prhA`, different tail. -/
def prhB : PlaneResourceHandles := ⟨⟨[⟨1⟩, ⟨3⟩], 1⟩⟩

/-- Prefix-wise equality of `ResourceHandles` is decidable. -/
instance (a b : ResourceHandles) : Decidable (a.eqv b) := by
  unfold ResourceHandles.eqv; infer_instance

/-- Prefix-wise equality of `PlaneResourceHandles` is decidable. -/
instance (a b : PlaneResourceHandles) : Decidable (a.eqv b) := by
  unfold PlaneResourceHandles.eqv; infer_instance

/-- Equal occupied prefixes everywhere, but different reported width
bounds. -/
def rhC : ResourceHandles :=
  ⟨⟨[], 0⟩, ⟨[], 0⟩, ⟨[], 0⟩, ⟨[], 0⟩, (0, 1), (0, 1)⟩

/-- Same buffers as `rhC`, different width bounds. -/
def rhD : ResourceHandles :=
  ⟨⟨[], 0⟩, ⟨[], 0⟩, ⟨[], 0⟩, ⟨[], 0⟩, (0, 2), (0, 1)⟩

/-! ## Theorems -/

/-! ### C1 — the vblank reply postcondition check -/

/-- C1 counterexample: for the request `Relative(1)` with no flags and
CRTC index 0 (request type word `_DRM_VBLANK_RELATIVE = 1`), a reply
with type word 0 passes the source's assert and is interpreted —
`wait_vblank` returns it — although its direction bits (absolute, 0) do
not equal the request's direction bits (relative, 1), so the claim's
condition for proceeding is violated. -/
theorem wait_vblank_direction_claim_cex :
    (wait_vblank chanAlwaysAbsolute (.Relative 1) noFlags 0 0) =
      (.ok ⟨42, none⟩, [⟨DRM_VBLANK_RELATIVE, 1, 0⟩]) ∧
    ¬ claimDirectionAgrees DRM_VBLANK_RELATIVE 0 := by
  decide

/-- Reduction of `wait_vblank` in the case where the precondition check
passes and the channel replies: what remains is the assert on the type
word gating the decode. -/
theorem wait_vblank_ok_reduce (chan : VblankChan)
    (target : WaitVblankTarget) (flags : WaitVblankFlags)
    (crtc_index user_data : Nat) (reply : RawVblankReply)
    (hpre : encodeHighCrtc crtc_index &&& DRM_VBLANK_HIGH_CRTC_MASK = 0)
    (hchan : chan ⟨encodeType target flags crtc_index, seqOf target,
      user_data⟩ = .ok reply) :
    wait_vblank chan target flags crtc_index user_data =
      if encodeType target flags crtc_index &&& u32Not (waitTypeOf target) =
          reply.type_ then
        (VblankOutcome.ok ⟨reply.sequence,
          if reply.tval_sec = 0 ∧ reply.tval_usec = 0 then none
          else some (durationNew (reply.tval_sec % 2 ^ 64)
            (reply.tval_usec * 1000 % 2 ^ 32))⟩,
          [⟨encodeType target flags crtc_index, seqOf target, user_data⟩])
      else
        (VblankOutcome.panicked,
          [⟨encodeType target flags crtc_index, seqOf target, user_data⟩]) := by
  unfold wait_vblank
  simp [hpre, hchan]

/-- C1 (amended): after a reply arrives, interpretation proceeds
exactly when the reply's whole type word equals the request's type word
with the direction (absolute/relative) bits masked out — the source's
`assert_eq!(type_ & !wait_type, reply.type_)` — and any mismatch halts
interpretation of that reply (a panic), rather than being returned as a
recoverable error. -/
theorem wait_vblank_assert_gate (chan : VblankChan)
    (target : WaitVblankTarget) (flags : WaitVblankFlags)
    (crtc_index user_data : Nat) (reply : RawVblankReply)
    (hpre : encodeHighCrtc crtc_index &&& DRM_VBLANK_HIGH_CRTC_MASK = 0)
    (hchan : chan ⟨encodeType target flags crtc_index, seqOf target,
      user_data⟩ = .ok reply) :
    ((wait_vblank chan target flags crtc_index user_data).1.isOk = true ↔
      reply.type_ =
        encodeType target flags crtc_index &&& u32Not (waitTypeOf target)) ∧
    (reply.type_ ≠
        encodeType target flags crtc_index &&& u32Not (waitTypeOf target) →
      (wait_vblank chan target flags crtc_index user_data).1 =
        VblankOutcome.panicked) := by
  rw [wait_vblank_ok_reduce chan target flags crtc_index user_data reply
    hpre hchan]
  by_cases hA : encodeType target flags crtc_index &&&
      u32Not (waitTypeOf target) = reply.type_
  · rw [if_pos hA]
    constructor
    · constructor
      · intro _
        exact hA.symm
      · intro _
        rfl
    · intro hne
      exact absurd hA.symm hne
  · rw [if_neg hA]
    constructor
    · constructor
      · intro h
        simp [VblankOutcome.isOk] at h
      · intro hEq
        exact absurd hEq.symm hA
    · intro _
      rfl

/-- C1 witness: a concrete absolute request whose reply's type word (0)
matches the request type word with direction masked out. -/
theorem wait_vblank_assert_gate_witness :
    ((wait_vblank chanAlwaysAbsolute (.Absolute 3) noFlags 0 0).1.isOk = true ↔
      (RawVblankReply.mk 0 42 0 0).type_ =
        encodeType (.Absolute 3) noFlags 0 &&& u32Not (waitTypeOf (.Absolute 3))) ∧
    ((RawVblankReply.mk 0 42 0 0).type_ ≠
        encodeType (.Absolute 3) noFlags 0 &&& u32Not (waitTypeOf (.Absolute 3)) →
      (wait_vblank chanAlwaysAbsolute (.Absolute 3) noFlags 0 0).1 =
        VblankOutcome.panicked) :=
  wait_vblank_assert_gate chanAlwaysAbsolute (.Absolute 3) noFlags 0 0
    ⟨0, 42, 0, 0⟩ (by decide) rfl

/-! ### C2 — the CRTC-index precondition -/

/-- C2 (code bug): CRTC index 1 shifts to `0b10`, which does not
intersect the absolute/relative flag bit or the behavior-flag bits
(third conjunct), yet `wait_vblank` rejects it with the invalid-argument
error and no request (first conjunct), because the source tests the
shifted index against `_DRM_VBLANK_HIGH_CRTC_MASK` itself instead of
its complement; conversely, index `0x2000000` shifts exactly onto the
`_DRM_VBLANK_EVENT` behavior flag yet is not rejected locally — a
request is issued (second conjunct). -/
theorem wait_vblank_crtc_index_check_inverted :
    wait_vblank chanStub (.Absolute 0) noFlags 1 0 =
      (.err .EINVAL, []) ∧
    (wait_vblank chanStub (.Absolute 0) noFlags 0x2000000 0).2 ≠ [] ∧
    (1 <<< DRM_VBLANK_HIGH_CRTC_SHIFT) &&&
      (DRM_VBLANK_RELATIVE ||| DRM_VBLANK_EVENT ||| DRM_VBLANK_NEXTONMISS) = 0 := by
  refine ⟨by decide, ?_, by decide⟩
  decide

/-! ### C5 — reply time and frame decoding -/

/-- C5: when a reply is interpreted (precondition passed, channel
replied, assert matched), the decoded time is `none` exactly for the
raw pair `(0, 0)` and otherwise is `tval_sec` seconds plus `tval_usec`
microseconds converted to nanoseconds, and the frame is the reply's
sequence unchanged.  The two range hypotheses say the raw C-long pair
is within the bit-widths the source casts it to. -/
theorem wait_vblank_time_decode (chan : VblankChan)
    (target : WaitVblankTarget) (flags : WaitVblankFlags)
    (crtc_index user_data : Nat) (reply : RawVblankReply)
    (hpre : encodeHighCrtc crtc_index &&& DRM_VBLANK_HIGH_CRTC_MASK = 0)
    (hchan : chan ⟨encodeType target flags crtc_index, seqOf target,
      user_data⟩ = .ok reply)
    (hassert : reply.type_ =
      encodeType target flags crtc_index &&& u32Not (waitTypeOf target))
    (hsec : reply.tval_sec < 2 ^ 64)
    (husec : reply.tval_usec * 1000 < 2 ^ 32) :
    (wait_vblank chan target flags crtc_index user_data).1 =
      VblankOutcome.ok ⟨reply.sequence,
        if reply.tval_sec = 0 ∧ reply.tval_usec = 0 then none
        else some (reply.tval_sec * 1000000000 + reply.tval_usec * 1000)⟩ := by
  rw [wait_vblank_ok_reduce chan target flags crtc_index user_data reply
    hpre hchan]
  rw [if_pos hassert.symm]
  simp only [durationNew, Nat.mod_eq_of_lt hsec, Nat.mod_eq_of_lt husec]

/-- C5 witness: raw `(seconds = 1, microseconds = 500)` decodes to
1000500000 nanoseconds (1.0005 s) with frame 7; the hypotheses hold at
the concrete channel and request. -/
theorem wait_vblank_time_decode_witness :
    (wait_vblank chanOneUsec (.Absolute 9) noFlags 0 0).1 =
      VblankOutcome.ok ⟨(RawVblankReply.mk 0 7 1 500).sequence,
        if (RawVblankReply.mk 0 7 1 500).tval_sec = 0 ∧
            (RawVblankReply.mk 0 7 1 500).tval_usec = 0 then none
        else some ((RawVblankReply.mk 0 7 1 500).tval_sec * 1000000000 +
          (RawVblankReply.mk 0 7 1 500).tval_usec * 1000)⟩ :=
  wait_vblank_time_decode chanOneUsec (.Absolute 9) noFlags 0 0
    ⟨0, 7, 1, 500⟩ (by decide) rfl (by decide) (by decide) (by decide)

/-! ### C3 — placeholder per-resource queries -/

/-- C3 counterexample: on a device that knows no encoder (so handle 5
is unknown/stale), `get_encoder` still succeeds and issues zero
control-channel requests — not the one failing round trip the claim
requires; `get_crtc`, `get_framebuffer` and `get_plane` behave the
same. -/
theorem get_info_single_round_trip_cex :
    get_encoder devEmpty ⟨5⟩ = (.ok ⟨⟩, []) ∧
    (5 : Nat) ∉ devEmpty.knownEncoders ∧
    get_crtc devEmpty ⟨5⟩ = (.ok ⟨⟩, []) ∧
    get_framebuffer devEmpty ⟨5⟩ = (.ok ⟨⟩, []) ∧
    get_plane devEmpty ⟨5⟩ = (.ok ⟨⟩, []) :=
  ⟨rfl, by decide, rfl, rfl, rfl⟩

/-- C3 (amended): `get_encoder`, `get_crtc`, `get_framebuffer` and
`get_plane` are placeholders — each performs no control-channel round
trip and always succeeds with the unit `Info` value, regardless of the
handle and of which handles the device knows. -/
theorem get_info_placeholders (dev : DevState) (he : EncHandle)
    (hc : CrtcHandle) (hf : FbHandle) (hp : PlaneHandle) :
    get_encoder dev he = (.ok ⟨⟩, []) ∧
    get_crtc dev hc = (.ok ⟨⟩, []) ∧
    get_framebuffer dev hf = (.ok ⟨⟩, []) ∧
    get_plane dev hp = (.ok ⟨⟩, []) :=
  ⟨rfl, rfl, rfl, rfl⟩

/-! ### C4 / C6 — resource enumeration -/

/-- `fill32` always yields the full 32-slot storage array. -/
theorem fill32_length {α : Type} (f : Nat → α) (l : List α) :
    (fill32 f l).length = 32 := by
  simp [fill32]
  omega

/-- The view of a buffer received through the 32-slot pattern has
exactly the occupied length when the occupied length is within
capacity. -/
theorem fill32_view_length {α : Type} (f : Nat → α) (l : List α) (n : Nat)
    (hn : n ≤ 32) :
    (SmallBuffer.mk (fill32 f l) n).view.length = n := by
  simp [SmallBuffer.view, fill32_length]
  omega

/-- C4: a successful `resource_handles` call returns buffers exposing
exactly the reported counts (each at most 32) and the device's reported
mode width and height bounds. -/
theorem resource_handles_counts (card : CardState)
    (hf : card.fbs.length ≤ 32) (hc : card.crtcs.length ≤ 32)
    (hn : card.connectors.length ≤ 32) (he : card.encoders.length ≤ 32) :
    ∃ r, resource_handles (.ok card) = .ok r ∧
      r.framebuffersView.length = card.fbs.length ∧
      r.crtcsView.length = card.crtcs.length ∧
      r.connectorsView.length = card.connectors.length ∧
      r.encodersView.length = card.encoders.length ∧
      r.width = (card.min_width, card.max_width) ∧
      r.height = (card.min_height, card.max_height) := by
  refine ⟨_, rfl, ?_, ?_, ?_, ?_, rfl, rfl⟩ <;>
    simp only [resource_handles, ResourceHandles.framebuffersView,
      ResourceHandles.crtcsView, ResourceHandles.connectorsView,
      ResourceHandles.encodersView, SmallBuffer.view, List.length_take,
      fill32_length, List.length_map] <;>
    omega

/-- C4 witness: enumerating `cardSmall` succeeds with
`crtcs().len() = 3`, `connectors().len() = 2`, `encoders().len() = 1`,
`framebuffers().len() = 0` and the reported bounds. -/
theorem resource_handles_counts_witness :
    ∃ r, resource_handles (.ok cardSmall) = .ok r ∧
      r.framebuffersView.length = cardSmall.fbs.length ∧
      r.crtcsView.length = cardSmall.crtcs.length ∧
      r.connectorsView.length = cardSmall.connectors.length ∧
      r.encodersView.length = cardSmall.encoders.length ∧
      r.width = (cardSmall.min_width, cardSmall.max_width) ∧
      r.height = (cardSmall.min_height, cardSmall.max_height) :=
  resource_handles_counts cardSmall (by decide) (by decide) (by decide)
    (by decide)

/-- C6: when the device reports more connectors than the 32-slot
capacity, `resource_handles` still succeeds — no error is surfaced —
and the exposed connector list is truncated to exactly 32 entries. -/
theorem resource_handles_truncates (card : CardState)
    (h : 32 ≤ card.connectors.length) :
    ∃ r, resource_handles (.ok card) = .ok r ∧
      r.connectorsView.length = 32 := by
  refine ⟨_, rfl, ?_⟩
  simp only [resource_handles, ResourceHandles.connectorsView,
    SmallBuffer.view, List.length_take, fill32_length, List.length_map]
  omega

/-- C6 witness: the 40-connector device enumerates successfully and its
connector list has length exactly 32. -/
theorem resource_handles_truncates_witness :
    ∃ r, resource_handles (.ok cardWide) = .ok r ∧
      r.connectorsView.length = 32 :=
  resource_handles_truncates cardWide (by decide)

/-! ### C7 / C9 / C10 — connector detail decoding -/

/-- C7: on a successful `get_connector` query, a kernel-reported
encoder field of 0 decodes to no currently-bound encoder, and any
nonzero reported value `v` decodes to `some` of the encoder handle with
id `v`. -/
theorem get_connector_curr_enc (chan : ConnChan) (handle : ConnHandle)
    (raw : RawConnectorInfo) (hchan : chan handle = .ok raw) :
    ∃ info, get_connector chan handle = .ok info ∧
      (raw.encoder_id = 0 → info.curr_enc = none) ∧
      (raw.encoder_id ≠ 0 → info.curr_enc = some ⟨raw.encoder_id⟩) := by
  unfold get_connector
  rw [hchan]
  refine ⟨_, rfl, ?_, ?_⟩
  · intro h0
    simp [h0]
  · intro hne
    simp [hne]

/-- C7 witness: querying through `chanConnEnc9` yields an info whose
bound encoder decodes from the nonzero id 9 to `some ⟨9⟩`. -/
theorem get_connector_curr_enc_witness :
    ∃ info, get_connector chanConnEnc9 ⟨4⟩ = .ok info ∧
      ((RawConnectorInfo.mk 11 1 1 600 340 [(3, 77)] [9] [] 9).encoder_id = 0 →
        info.curr_enc = none) ∧
      ((RawConnectorInfo.mk 11 1 1 600 340 [(3, 77)] [9] [] 9).encoder_id ≠ 0 →
        info.curr_enc = some ⟨(RawConnectorInfo.mk 11 1 1 600 340
          [(3, 77)] [9] [] 9).encoder_id⟩) :=
  get_connector_curr_enc chanConnEnc9 ⟨4⟩
    ⟨11, 1, 1, 600, 340, [(3, 77)], [9], [], 9⟩ rfl

/-- C9: every connector info produced by a successful `get_connector`
call carries property and property-value buffers of equal occupied
length. -/
theorem get_connector_parallel_props (chan : ConnChan) (handle : ConnHandle)
    (info : ConnectorInfo) (h : get_connector chan handle = .ok info) :
    info.props.len = info.pvals.len := by
  unfold get_connector at h
  cases hc : chan handle with
  | error e => rw [hc] at h; exact nomatch h
  | ok raw =>
    rw [hc] at h
    cases h
    rfl

/-- C9 witness: the info obtained through `chanConnEnc9` has equal
occupied lengths in its property and property-value buffers. -/
theorem get_connector_parallel_props_witness :
    (ConnectorInfo.mk ⟨4⟩ ⟨11⟩ 1 (connStateFrom 1) (600, 340)
      ⟨fill32 id [3], 1⟩ ⟨fill32 id [77], 1⟩
      ⟨fill32 EncHandle.mk [⟨9⟩], 1⟩
      ⟨List.replicate 32 ModeInfo.default, 0⟩ (some ⟨9⟩)).props.len =
    (ConnectorInfo.mk ⟨4⟩ ⟨11⟩ 1 (connStateFrom 1) (600, 340)
      ⟨fill32 id [3], 1⟩ ⟨fill32 id [77], 1⟩
      ⟨fill32 EncHandle.mk [⟨9⟩], 1⟩
      ⟨List.replicate 32 ModeInfo.default, 0⟩ (some ⟨9⟩)).pvals.len :=
  get_connector_parallel_props chanConnEnc9 ⟨4⟩ _ rfl

/-- C10: the handle field of the info returned by a successful
`get_connector(handle)` call is the very handle the caller passed in. -/
theorem get_connector_handle_roundtrip (chan : ConnChan)
    (handle : ConnHandle) (info : ConnectorInfo)
    (h : get_connector chan handle = .ok info) :
    info.handle = handle := by
  unfold get_connector at h
  cases hc : chan handle with
  | error e => rw [hc] at h; exact nomatch h
  | ok raw =>
    rw [hc] at h
    cases h
    rfl

/-- C10 witness: the info obtained through `chanConnEnc9` for handle 4
carries handle 4. -/
theorem get_connector_handle_roundtrip_witness :
    (ConnectorInfo.mk ⟨4⟩ ⟨11⟩ 1 (connStateFrom 1) (600, 340)
      ⟨fill32 id [3], 1⟩ ⟨fill32 id [77], 1⟩
      ⟨fill32 EncHandle.mk [⟨9⟩], 1⟩
      ⟨List.replicate 32 ModeInfo.default, 0⟩ (some ⟨9⟩)).handle =
    (⟨4⟩ : ConnHandle) :=
  get_connector_handle_roundtrip chanConnEnc9 ⟨4⟩ _ rfl

/-! ### C8 — prefix-only buffer semantics -/

/-- C8 counterexample: `rhC` and `rhD` agree on all four occupied
prefixes (all four buffers are even identical) yet do not compare
equal, because the derived equality of `ResourceHandles` also compares
the width bounds, which differ — so equal occupied prefixes alone do
not make two `ResourceHandles` compare equal. -/
theorem resource_handles_prefix_eq_cex :
    rhC.fbs.view = rhD.fbs.view ∧ rhC.crtcs.view = rhD.crtcs.view ∧
    rhC.connectors.view = rhD.connectors.view ∧
    rhC.encoders.view = rhD.encoders.view ∧
    ¬ rhC.eqv rhD := by
  decide

/-- C8 (amended): a bounded buffer of capacity 32 with occupied length
`n ≤ 32` exposes a view of exactly length `n`; two buffers with
element-wise equal occupied prefixes — whatever their unused tails
hold — compare equal and hash equal; and consequently
`PlaneResourceHandles` values with equal occupied prefixes, and
`ResourceHandles` values with equal occupied prefixes and equal
width/height bounds, compare and hash equal — unused tail slots never
affect comparison or hashing. -/
theorem bounded_buffer_prefix_contract
    (data1 data2 : List Nat) (n : Nat)
    (h1 : data1.length = 32) (hn : n ≤ 32)
    (hpre : data1.take n = data2.take n)
    (r1 r2 : ResourceHandles) (p1 p2 : PlaneResourceHandles)
    (hr : r1.fbs.view = r2.fbs.view ∧ r1.crtcs.view = r2.crtcs.view ∧
      r1.connectors.view = r2.connectors.view ∧
      r1.encoders.view = r2.encoders.view ∧
      r1.width = r2.width ∧ r1.height = r2.height)
    (hp : p1.planes.view = p2.planes.view) :
    (SmallBuffer.mk data1 n).view.length = n ∧
    (SmallBuffer.mk data1 n).eqv (SmallBuffer.mk data2 n) ∧
    SmallBuffer.hashv id (SmallBuffer.mk data1 n) =
      SmallBuffer.hashv id (SmallBuffer.mk data2 n) ∧
    r1.eqv r2 ∧ r1.hashv = r2.hashv ∧
    p1.eqv p2 ∧ p1.hashv = p2.hashv := by
  obtain ⟨hfb, hcr, hco, hen, hw, hh⟩ := hr
  refine ⟨?_, ?_, ?_, ?_, ?_, ?_, ?_⟩
  · simp [SmallBuffer.view, h1]
    omega
  · exact hpre
  · unfold SmallBuffer.hashv SmallBuffer.view
    rw [show (SmallBuffer.mk data1 n).data.take (SmallBuffer.mk data1 n).len =
      data2.take n from hpre]
  · exact ⟨hfb, hcr, hco, hen, hw, hh⟩
  · unfold ResourceHandles.hashv SmallBuffer.hashv
    rw [hfb, hcr, hco, hen, hw, hh]
  · exact hp
  · unfold PlaneResourceHandles.hashv SmallBuffer.hashv
    rw [hp]

/-- C8 witness: two concrete 32-slot buffers equal on their occupied
prefix of length 2 but different in slot 3, and the concrete aggregate
pairs above, satisfy the contract. -/
theorem bounded_buffer_prefix_contract_witness :
    (SmallBuffer.mk (1 :: 2 :: 7 :: List.replicate 29 0) 2).view.length = 2 ∧
    (SmallBuffer.mk (1 :: 2 :: 7 :: List.replicate 29 0) 2).eqv
      (SmallBuffer.mk (1 :: 2 :: 9 :: List.replicate 29 4) 2) ∧
    SmallBuffer.hashv id (SmallBuffer.mk (1 :: 2 :: 7 :: List.replicate 29 0) 2) =
      SmallBuffer.hashv id (SmallBuffer.mk (1 :: 2 :: 9 :: List.replicate 29 4) 2) ∧
    rhA.eqv rhB ∧ rhA.hashv = rhB.hashv ∧
    prhA.eqv prhB ∧ prhA.hashv = prhB.hashv :=
  bounded_buffer_prefix_contract
    (1 :: 2 :: 7 :: List.replicate 29 0) (1 :: 2 :: 9 :: List.replicate 29 4) 2
    (by decide) (by decide) (by decide) rhA rhB prhA prhB
    ⟨by decide, by decide, by decide, by decide, by decide, by decide⟩
    (by decide)

end Drm
